import Mathlib

/-
Shallow embedding of build_map.py (industrial-parks-map repository).

The program scans the working directory for spreadsheet files, classifies
each one by presence of the sheet 工業區基本資料, extracts park records,
renders optional measurement tables to static detail pages, and composes
one folium map document with one marker per accepted record.

Cells of a spreadsheet are modelled by an inductive type mirroring the
values pandas produces when reading an Excel file: a missing key lookup
yields Python None (modelled by the Option layer of lookups and by
Cell.null), an empty cell yields float NaN (Cell.nan), numbers are
rationals (Cell.num), text is Cell.str.  Python float() over its plain
decimal grammar is modelled by parseDec; the exact float-repr printing is
modelled by ratStr as decimal expansion, which agrees with Python on the
short decimal inputs this program handles.  Filesystem effects (whether a
detail-page write succeeds, whether the final save succeeds, whether a
background layer loads) are oracles carried by the input world, mirroring
the try/except structure of the source.
-/

namespace BuildMap

/-- Python whitespace characters matched by str.strip and the regex class
backslash-s (ASCII part). -/
def isSpaceChar (c : Char) : Bool :=
  c == ' ' || c == '\t' || c == '\n' || c == '\r' || c == '\x0b' || c == '\x0c'

/-- CJK ideograph range 4E00 to 9FFF named explicitly in the regex of
safe_slug. -/
def isCJK (c : Char) : Bool :=
  0x4e00 ≤ c.toNat && c.toNat ≤ 0x9fff

/-- Word characters of the regex class backslash-w: alphanumerics and the
underscore (ASCII approximation of the Python Unicode class). -/
def isWordChar (c : Char) : Bool :=
  c.isAlphanum || c == '_'

/-- The character class kept by safe_slug: complement of
[^\w一-鿿\-_.] in build_map.py line 40. -/
def allowedChar (c : Char) : Bool :=
  isWordChar c || isCJK c || c == '-' || c == '_' || c == '.'

/-- str.strip of Python: drop leading and trailing whitespace. -/
def stripList (l : List Char) : List Char :=
  ((l.dropWhile isSpaceChar).reverse.dropWhile isSpaceChar).reverse

/-- re.sub of the pattern backslash-s-plus with "_": every maximal run of
whitespace becomes one underscore.  The boolean flag records whether the
previous character was whitespace. -/
def collapseWS : List Char → Bool → List Char
  | [], _ => []
  | c :: rest, prevSpace =>
    if isSpaceChar c then
      if prevSpace then collapseWS rest true
      else '_' :: collapseWS rest true
    else c :: collapseWS rest false

/-- safe_slug of build_map.py lines 36 to 41: strip, collapse whitespace
runs to underscores, replace every character outside the allowed class by
an underscore. -/
def safe_slug (text : String) : String :=
  let l1 := stripList text.data
  let l2 := collapseWS l1 false
  String.mk (l2.map (fun c => if allowedChar c then c else '_'))

/-- Split a character list on the dot character (used to model the
suffix handling of pathlib). -/
def splitDot : List Char → List (List Char)
  | [] => [[]]
  | c :: rest =>
    match splitDot rest with
    | [] => [[]]
    | p :: ps => if c == '.' then [] :: p :: ps else (c :: p) :: ps

/-- Path.stem of pathlib: the file name without its final suffix; a
leading-dot name with no other dot keeps itself. -/
def pathStem (s : String) : String :=
  let parts := splitDot s.data
  if parts.length ≤ 1 then s
  else if (match s.data with | '.' :: _ => true | _ => false) && parts.length == 2 then s
  else String.mk (List.intercalate ['.'] parts.dropLast)

/-- A spreadsheet cell as pandas materialises it: None, float NaN (how
pandas reads an empty cell), a number, or text. -/
inductive Cell where
  | null : Cell
  | nan : Cell
  | num : ℚ → Cell
  | str : String → Cell
deriving DecidableEq, Repr

/-- A Python float value: NaN or a (rational-modelled) numeric value. -/
inductive PyFloat where
  | nan : PyFloat
  | val : ℚ → PyFloat
deriving DecidableEq, Repr

/-- Value of a digit list read in base ten. -/
def digitsToNat (l : List Char) : Nat :=
  l.foldl (fun n c => n * 10 + (c.toNat - 48)) 0

/-- Python float() applied to a string, restricted to the plain decimal
grammar (optional surrounding whitespace, optional sign, digits with an
optional fractional part).  Returns none where float() raises ValueError. -/
def parseDec (s : String) : Option ℚ :=
  let l := stripList s.data
  let signAndRest : ℚ × List Char :=
    match l with
    | '-' :: rest => (-1, rest)
    | '+' :: rest => (1, rest)
    | _ => (1, l)
  let sgn := signAndRest.1
  let body := signAndRest.2
  let ip := body.takeWhile Char.isDigit
  let rest := body.dropWhile Char.isDigit
  match rest with
  | [] =>
    if ip.isEmpty then none
    else some (sgn * (digitsToNat ip : ℚ))
  | '.' :: fp =>
    if fp.all Char.isDigit && !(ip.isEmpty && fp.isEmpty) then
      some (sgn * ((digitsToNat ip : ℚ) + (digitsToNat fp : ℚ) / ((10 : ℚ) ^ fp.length)))
    else none
  | _ => none

/-- Decimal expansion of the fractional remainder rem over den, up to the
given fuel of digits. -/
def fracDigits : Nat → Nat → Nat → String
  | 0, _, _ => ""
  | _ + 1, _, 0 => ""
  | fuel + 1, den, rem =>
    let r10 := rem * 10
    toString (r10 / den) ++ fracDigits fuel den (r10 % den)

/-- Python str() of a float, modelled as decimal expansion of the
rational (Python always prints a fractional part for a float). -/
def ratStr (q : ℚ) : String :=
  let sgn := if q < 0 then "-" else ""
  let n := q.num.natAbs
  let d := q.den
  let fr := fracDigits 17 d (n % d)
  sgn ++ toString (n / d) ++ "." ++ (if fr = "" then "0" else fr)

/-- Python str() of a float that may be NaN. -/
def pyFloatStr : PyFloat → String
  | PyFloat.nan => "nan"
  | PyFloat.val q => ratStr q

/-- Python str() of a dictionary value as used inside get_str of
build_map.py lines 63 to 65: None becomes the empty string, NaN prints as
nan, numbers and text print themselves. -/
def pyStrOfCell : Cell → String
  | Cell.null => ""
  | Cell.nan => "nan"
  | Cell.num q => ratStr q
  | Cell.str s => s

/-- Python float() applied to a cell value: None raises (none), NaN is a
float already, numbers pass through, strings go through the decimal
grammar. -/
def pyFloatOfCell : Cell → Option PyFloat
  | Cell.null => none
  | Cell.nan => some PyFloat.nan
  | Cell.num q => some (PyFloat.val q)
  | Cell.str s => (parseDec s).map PyFloat.val

/-- float(m.get(key)): a missing key gives Python None, on which float()
raises TypeError. -/
def floatOfLookup : Option Cell → Option PyFloat
  | none => none
  | some c => pyFloatOfCell c

/-- One sheet of a spreadsheet: the header row of column names and the
data rows (pandas pads short rows with NaN, hence lookups default to
Cell.nan). -/
structure Sheet where
  header : List String
  rows : List (List Cell)
deriving DecidableEq, Repr

/-- A spreadsheet that opened successfully: its named sheets in order. -/
structure Xlsx where
  sheets : List (String × Sheet)
deriving DecidableEq, Repr

/-- Sheet lookup by name, as pd.read_excel with an explicit sheet_name. -/
def lookupSheet (xl : Xlsx) (name : String) : Option Sheet :=
  (xl.sheets.find? (fun p => p.1 == name)).map Prod.snd

/-- Key cell of a key/value row (first column). -/
def rowKey (r : List Cell) : Cell := r.getD 0 Cell.nan

/-- Value cell of a key/value row (second column). -/
def rowVal (r : List Cell) : Cell := r.getD 1 Cell.nan

/-- df.set_index(key_col)[val_col].to_dict() followed by .get(key): with
duplicate keys the last row wins, so search the reversed row list; a
missing key yields none (Python None). -/
def kvGet (rows : List (List Cell)) (key : String) : Option Cell :=
  (rows.reverse.find? (fun r => rowKey r == Cell.str key)).map rowVal

/-- get_str of build_map.py lines 63 to 65: m.get(key, default) followed
by the None guard and str(). -/
def getStr (rows : List (List Cell)) (key dflt : String) : String :=
  match kvGet rows key with
  | none => dflt
  | some c => pyStrOfCell c

/-- Lexicographic order on character lists by code point, as Python
compares strings. -/
def strLEb : List Char → List Char → Bool
  | [], _ => true
  | _ :: _, [] => false
  | a :: as, b :: bs =>
    if a.toNat = b.toNat then strLEb as bs else decide (a.toNat < b.toNat)

/-- Ordering on cells used as the sort key of sort_values: numbers by
value, text lexicographically; NaN is placed last as pandas does with
na_position last.  This totalises the pandas comparison, which coincides
with it on homogeneous (all-numeric or all-text) columns. -/
def cellLE (a b : Cell) : Bool :=
  match a, b with
  | Cell.num p, Cell.num q => decide (p ≤ q)
  | Cell.num _, _ => true
  | _, Cell.num _ => false
  | Cell.str s, Cell.str t => strLEb s.data t.data
  | Cell.str _, _ => true
  | _, Cell.str _ => false
  | Cell.null, Cell.null => true
  | Cell.null, Cell.nan => true
  | Cell.nan, Cell.null => false
  | Cell.nan, Cell.nan => true

/-- Row comparison by the cell in column i (pandas pads missing cells
with NaN). -/
def rowLE (i : Nat) (r1 r2 : List Cell) : Prop :=
  cellLE (r1.getD i Cell.nan) (r2.getD i Cell.nan) = true

instance rowLEDecidable (i : Nat) : DecidableRel (rowLE i) :=
  fun r1 r2 =>
    inferInstanceAs (Decidable (cellLE (r1.getD i Cell.nan) (r2.getD i Cell.nan) = true))

/-- Column index of StartTime in the measurement sheet header, mirroring
the membership test on meas_df.columns. -/
def startTimeIdx (header : List String) : Option Nat :=
  List.findIdx? (fun h => h == "StartTime") header

/-- meas_df.sort_values("StartTime") when the column exists, identity
otherwise (build_map.py lines 80 to 81). -/
def sortedMeasRows (ms : Sheet) : List (List Cell) :=
  match startTimeIdx ms.header with
  | some i => List.insertionSort (rowLE i) ms.rows
  | none => ms.rows

/-- The record returned by read_park_xlsx (build_map.py lines 108 to
116). -/
structure ParkRecord where
  park_name : String
  lon : PyFloat
  lat : PyFloat
  monitoring_period : String
  data_type : String
  note : String
  raw_page_href : String
deriving DecidableEq, Repr

/-- Structured log events standing for the print calls of the source:
coordWarn is the coordinate warning of line 72 (it names the park and the
file), measWarn the measurement-generation warning of line 106, loaded
the success message of line 212. -/
inductive LogEvent where
  | coordWarn : String → String → LogEvent
  | measWarn : String → LogEvent
  | loaded : String → LogEvent
  | layerWarn : String → LogEvent
deriving DecidableEq, Repr

/-- One file seen by the directory scan: its name, its content (none when
pd.ExcelFile raises), and an oracle telling whether the detail-page
filesystem step (mkdir plus write_text) succeeds for this file. -/
structure PFile where
  name : String
  content : Option Xlsx
  measOk : Bool
deriving DecidableEq, Repr

/-- Result of one read_park_xlsx call: the optional record, the detail
pages written (file name and rendered table rows), and the warnings
printed. -/
structure ReadResult where
  record : Option ParkRecord
  pages : List (String × List (List Cell))
  log : List LogEvent
deriving DecidableEq, Repr

/-- The optional measurement block of build_map.py lines 75 to 106:
returns the raw_page_href, the page written, and the warning log.  A
false oracle models any exception inside the try block (read, sort,
mkdir, render, write). -/
def processMeas (ok : Bool) (xl : Xlsx) (park_name : String) :
    String × List (String × List (List Cell)) × List LogEvent :=
  match lookupSheet xl "量測資料" with
  | none => ("", [], [])
  | some ms =>
    if ok then
      let fname := safe_slug park_name ++ "_量測資料.html"
      ("./data/" ++ fname, [(fname, sortedMeasRows ms)], [])
    else ("", [], [LogEvent.measWarn park_name])

/-- read_park_xlsx of build_map.py lines 43 to 116.  The first try block
covers opening, the sheet-name test, and the two column accesses, so a
file that fails to open, lacks the sheet, or has fewer than two columns
is skipped silently.  Coordinates then go through float() with a bare
except that logs and rejects.  The measurement block is optional. -/
def read_park_xlsx (f : PFile) : ReadResult :=
  match f.content with
  | none => ⟨none, [], []⟩
  | some xl =>
    match lookupSheet xl "工業區基本資料" with
    | none => ⟨none, [], []⟩
    | some sheet =>
      if sheet.header.length < 2 then ⟨none, [], []⟩
      else
        let park_name := getStr sheet.rows "工業區名稱" (pathStem f.name)
        match floatOfLookup (kvGet sheet.rows "工業區中心經度"),
              floatOfLookup (kvGet sheet.rows "工業區中心緯度") with
        | some lon, some lat =>
          let meas := processMeas f.measOk xl park_name
          ⟨some ⟨park_name, lon, lat,
                 getStr sheet.rows "監測期間" "（未填）",
                 getStr sheet.rows "資料類型" "（未填）",
                 getStr sheet.rows "備註" "（未填）",
                 meas.1⟩,
           meas.2.1, meas.2.2⟩
        | _, _ => ⟨none, [], [LogEvent.coordWarn park_name f.name]⟩

/-- The hidden metadata element of the popup (build_map.py line 143):
identifying metadata as data attributes keyed by the slug-derived id. -/
def metaDivHtml (park : ParkRecord) : String :=
  "<div id=\"meta_" ++ safe_slug park.park_name ++
  "\" data-park=\"" ++ park.park_name ++
  "\" data-lat=\"" ++ pyFloatStr park.lat ++
  "\" data-lon=\"" ++ pyFloatStr park.lon ++
  "\" style=\"display:none;\"></div>"

/-- The detail-page button (build_map.py lines 123 to 125): present only
when raw_page_href is truthy. -/
def btnHtml (park : ParkRecord) : String :=
  if park.raw_page_href == "" then ""
  else
    "<a href=\"" ++ park.raw_page_href ++
    "\" target=\"_blank\" style=\"color:white;background:#0d6efd;padding:4px 8px;text-decoration:none;border-radius:4px;font-size:12px;\">查看原始資料</a>"

/-- The feedback block (build_map.py lines 128 to 134). -/
def feedbackHtml (park : ParkRecord) : String :=
  let pid := safe_slug park.park_name
  "\n    <div style=\"margin-top:8px;border-top:1px solid #ccc;padding-top:8px;\">\n        <textarea id=\"fb_" ++
  pid ++
  "\" rows=\"2\" style=\"width:100%;font-size:12px;\" placeholder=\"輸入回饋...\"></textarea>\n        <button onclick=\"sendFeedback(\x27" ++
  pid ++
  "\x27)\" style=\"margin-top:4px;font-size:12px;cursor:pointer;\">送出</button>\n        <span id=\"msg_" ++
  pid ++
  "\" style=\"font-size:11px;color:green;\"></span>\n    </div>\n    "

/-- Everything of the popup before the hidden metadata element
(build_map.py lines 136 to 142). -/
def popupHead (park : ParkRecord) : String :=
  "\n    <div style=\"font-family:sans-serif;font-size:13px;min-width:250px;\">\n        <h5 style=\"margin:0 0 8px 0;\">" ++
  park.park_name ++
  "</h5>\n        <div><b>監測期間:</b> " ++
  park.monitoring_period ++
  "</div>\n        <div><b>備註:</b> " ++
  park.note ++
  "</div>\n        <div style=\"margin-top:6px;\">" ++
  btnHtml park ++
  "</div>\n        " ++
  feedbackHtml park ++
  "\n        "

/-- Closing markup of the popup after the metadata element. -/
def popupTail : String := "\n    </div>\n    "

/-- create_popup_html of build_map.py lines 118 to 145. -/
def create_popup_html (park : ParkRecord) : String :=
  popupHead park ++ metaDivHtml park ++ popupTail

/-- The denylist of build_map.py lines 25 to 30 (Path .name keeps only
the base name of the two fixed spreadsheet paths). -/
def EXCLUDE_FILES : List String :=
  ["111學年度各級學校名錄（含經緯度）20230825.xlsx",
   "園區名單及座標_114.06.05.xlsx",
   "requirements.txt",
   ".DS_Store"]

/-- A target marker of the feature group 分析目標: location, popup HTML,
tooltip (build_map.py lines 213 to 219). -/
structure Marker where
  lat : PyFloat
  lon : PyFloat
  popup : String
  tooltip : String
deriving DecidableEq, Repr

/-- The marker built in main for an accepted record. -/
def mkMarker (d : ParkRecord) : Marker :=
  ⟨d.lat, d.lon, create_popup_html d, d.park_name⟩

/-- Accumulated result of the scan loop of build_map.py lines 203 to
221: the target markers in file order, the success counter, the detail
pages written, and the log. -/
structure ScanResult where
  markers : List Marker
  count : Nat
  pages : List (String × List (List Cell))
  log : List LogEvent
deriving DecidableEq, Repr

/-- The scan loop: skip denylisted names, read each file, add one marker
per accepted record. -/
def scanFiles : List PFile → ScanResult
  | [] => ⟨[], 0, [], []⟩
  | f :: fs =>
    let r := scanFiles fs
    if f.name ∈ EXCLUDE_FILES then r
    else
      let res := read_park_xlsx f
      match res.record with
      | some d =>
        ⟨mkMarker d :: r.markers, r.count + 1, res.pages ++ r.pages,
         res.log ++ (LogEvent.loaded d.park_name :: r.log)⟩
      | none => ⟨r.markers, r.count, res.pages ++ r.pages, res.log ++ r.log⟩

/-- The validly extracted park records of a directory: files surviving
the denylist whose extraction returns a record. -/
def acceptedRecords (files : List PFile) : List ParkRecord :=
  (files.filter (fun f => decide (f.name ∉ EXCLUDE_FILES))).filterMap
    (fun f => (read_park_xlsx f).record)

/-- The whole input of one run: oracles for the four fixed background
inputs, the spreadsheet files found by the directory glob, and whether
the final m.save(index.html) succeeds.  For the two geometry layers,
none means the file is absent and the boolean tells whether loading
succeeds; for the two point spreadsheets the inner option distinguishes
a failed read from the row list. -/
structure World where
  countyShp : Option Bool
  industrialShp : Option Bool
  schoolRows : Option (Option (List (Cell × Cell × Cell)))
  centerRows : Option (Option (List (Cell × Cell × Cell)))
  files : List PFile
  saveOk : Bool
deriving DecidableEq, Repr

/-- pd.notnull: false exactly on None and NaN. -/
def cellNotNull : Cell → Bool
  | Cell.null => false
  | Cell.nan => false
  | _ => true

/-- County layer (build_map.py lines 158 to 164): absent file is skipped
silently, a load failure logs a warning, success contributes the named
layer. -/
def loadCounty : Option Bool → List String × List LogEvent
  | none => ([], [])
  | some true => (["縣市邊界"], [])
  | some false => ([], [LogEvent.layerWarn "縣市邊界"])

/-- Industrial-boundary layer (build_map.py lines 167 to 171): the
except clause is a bare pass, so a failure is fully silent. -/
def loadIndustrial : Option Bool → List String × List LogEvent
  | none => ([], [])
  | some true => (["產業園區範圍"], [])
  | some false => ([], [])

/-- Point rows kept by the school and center loops (build_map.py lines
178 to 181 and 189 to 192): both coordinate cells must be notnull.  Rows
are triples (first coordinate, second coordinate, popup name). -/
def loadPoints : Option (Option (List (Cell × Cell × Cell))) → List (Cell × Cell × Cell)
  | some (some rows) => rows.filter (fun r => cellNotNull r.1 && cellNotNull r.2.1)
  | _ => []

/-- The composed map document: named overlays, point markers of the two
point layers, the target feature group, the counter printed at line 223,
the detail pages, and the log. -/
structure RunOutput where
  layers : List String
  schoolMarkers : List (Cell × Cell × Cell)
  centerMarkers : List (Cell × Cell × Cell)
  targetMarkers : List Marker
  count : Nat
  pages : List (String × List (List Cell))
  log : List LogEvent
deriving DecidableEq, Repr

/-- Everything main does before m.save: background layers (each optional
and independently skipped), then the scan loop, then the feature groups.
The school, center and target groups are added to the map
unconditionally. -/
def buildRun (w : World) : RunOutput :=
  let county := loadCounty w.countyShp
  let industrial := loadIndustrial w.industrialShp
  let school := loadPoints w.schoolRows
  let center := loadPoints w.centerRows
  let scan := scanFiles w.files
  ⟨county.1 ++ industrial.1 ++ ["學校", "全台工業區中心點", "📌 分析目標 (含回饋)"],
   school, center, scan.markers, scan.count, scan.pages,
   county.2 ++ industrial.2 ++ scan.log⟩

/-- Whether a float coordinate passes folium validate_location, which
raises ValueError on NaN. -/
def notNaN : PyFloat → Bool
  | PyFloat.nan => false
  | PyFloat.val _ => true

/-- folium.Marker at build_map.py line 214 validates the location
[lat, lon] and raises ValueError when either coordinate is NaN; that
call sits in the scan loop outside every try block. -/
def locationValid (d : ParkRecord) : Bool :=
  notNaN d.lat && notNaN d.lon

/-- Outcome of the scan loop of build_map.py lines 203 to 221 with the
uncaught folium.Marker exception: done carries the accumulated result,
crashed carries the first accepted record (in file order) whose NaN
coordinate makes folium.Marker raise out of the loop. -/
inductive ScanOutcome where
  | done : ScanResult → ScanOutcome
  | crashed : ParkRecord → ScanOutcome
deriving DecidableEq, Repr

/-- The scan loop including the marker-construction exception: each
accepted record reaches folium.Marker (line 214), which raises on a NaN
coordinate; nothing in main catches it, so the loop aborts there. -/
def scanFilesE : List PFile → ScanOutcome
  | [] => ScanOutcome.done ⟨[], 0, [], []⟩
  | f :: fs =>
    if f.name ∈ EXCLUDE_FILES then scanFilesE fs
    else
      let res := read_park_xlsx f
      match res.record with
      | some d =>
        if locationValid d then
          match scanFilesE fs with
          | ScanOutcome.done r =>
            ScanOutcome.done ⟨mkMarker d :: r.markers, r.count + 1, res.pages ++ r.pages,
                              res.log ++ (LogEvent.loaded d.park_name :: r.log)⟩
          | ScanOutcome.crashed e => ScanOutcome.crashed e
        else ScanOutcome.crashed d
      | none =>
        match scanFilesE fs with
        | ScanOutcome.done r =>
          ScanOutcome.done ⟨r.markers, r.count, res.pages ++ r.pages, res.log ++ r.log⟩
        | ScanOutcome.crashed e => ScanOutcome.crashed e

/-- Outcome of the process: ok models a completed run (exit status 0,
index.html written); saveError models the uncaught exception raised by
m.save; markerError models the uncaught ValueError raised by
folium.Marker on a NaN-coordinate record, which aborts the run inside the
scan loop, before the save. -/
inductive Outcome where
  | ok : RunOutput → Outcome
  | saveError : RunOutput → Outcome
  | markerError : ParkRecord → Outcome
deriving DecidableEq, Repr

/-- main of build_map.py lines 150 to 260: the pipeline runs to the end
unless folium.Marker raises on a NaN-coordinate record (line 214,
outside every try block); when the scan completes, only the final save
can abort. -/
def mainRun (w : World) : Outcome :=
  match scanFilesE w.files with
  | ScanOutcome.crashed d => Outcome.markerError d
  | ScanOutcome.done _ =>
    if w.saveOk then Outcome.ok (buildRun w) else Outcome.saveError (buildRun w)

/-
Concrete sample inputs used by the witnesses and counterexamples.
-/

/-- The rational 120.3 in normal form (kernel-reducible). -/
def lonQ : ℚ := ⟨1203, 10, by decide, by decide⟩

/-- The rational 23.5 in normal form (kernel-reducible). -/
def latQ : ℚ := ⟨47, 2, by decide, by decide⟩

/-- Basic-info sheet of the demonstration park of the scenario: name
示範園區, lon 120.3, lat 23.5, no descriptive metadata rows. -/
def demoBasicSheet : Sheet :=
  ⟨["項目", "內容"],
   [[Cell.str "工業區名稱", Cell.str "示範園區"],
    [Cell.str "工業區中心經度", Cell.num lonQ],
    [Cell.str "工業區中心緯度", Cell.num latQ]]⟩

/-- A valid target spreadsheet with no measurement sheet. -/
def demoXlsx : Xlsx := ⟨[("工業區基本資料", demoBasicSheet)]⟩

/-- A valid target file. -/
def demoFile : PFile := ⟨"示範園區.xlsx", some demoXlsx, true⟩

/-- An irrelevant spreadsheet without the required sheet. -/
def otherXlsx : Xlsx := ⟨[("工作表1", ⟨["A"], [[Cell.num 1]]⟩)]⟩

/-- An irrelevant spreadsheet file. -/
def otherFile : PFile := ⟨"other.xlsx", some otherXlsx, true⟩

/-- A file on which opening raises. -/
def brokenFile : PFile := ⟨"broken.xlsx", none, true⟩

/-- A measurement sheet with a StartTime column, out of order. -/
def demoMeasSheet : Sheet :=
  ⟨["StartTime", "數值"],
   [[Cell.num 3, Cell.str "b"],
    [Cell.num 1, Cell.str "a"],
    [Cell.num 2, Cell.str "c"]]⟩

/-- A target spreadsheet with both sheets. -/
def demoXlsx2 : Xlsx :=
  ⟨[("工業區基本資料", demoBasicSheet), ("量測資料", demoMeasSheet)]⟩

/-- A target file with a measurement sheet whose page write succeeds. -/
def demoFile2 : PFile := ⟨"demo2.xlsx", some demoXlsx2, true⟩

/-- The same target file when the detail-page filesystem step fails. -/
def demoFile2Bad : PFile := ⟨"demo2.xlsx", some demoXlsx2, false⟩

/-- A basic-info sheet whose latitude value is a non-numeric string. -/
def badLatSheet : Sheet :=
  ⟨["項目", "內容"],
   [[Cell.str "工業區名稱", Cell.str "示範園區"],
    [Cell.str "工業區中心經度", Cell.num lonQ],
    [Cell.str "工業區中心緯度", Cell.str "N/A"]]⟩

/-- A target file with a non-numeric latitude. -/
def badLatFile : PFile := ⟨"bad.xlsx", some ⟨[("工業區基本資料", badLatSheet)]⟩, true⟩

/-- A basic-info sheet whose latitude row is present but whose value
cell is empty: pandas materialises the empty cell as float NaN. -/
def nanLatSheet : Sheet :=
  ⟨["項目", "內容"],
   [[Cell.str "工業區名稱", Cell.str "示範園區"],
    [Cell.str "工業區中心經度", Cell.num lonQ],
    [Cell.str "工業區中心緯度", Cell.nan]]⟩

/-- A target file whose latitude cell is empty. -/
def nanLatFile : PFile := ⟨"nan.xlsx", some ⟨[("工業區基本資料", nanLatSheet)]⟩, true⟩

/-- A spreadsheet whose required sheet exists but has only one column. -/
def oneColXlsx : Xlsx := ⟨[("工業區基本資料", ⟨["項目"], [[Cell.str "工業區名稱"]]⟩)]⟩

/-- A file whose required sheet has fewer than two columns. -/
def oneColFile : PFile := ⟨"onecol.xlsx", some oneColXlsx, true⟩

/-- The record extracted from demoFile. -/
def demoRecord : ParkRecord :=
  ⟨"示範園區", PyFloat.val lonQ, PyFloat.val latQ,
   "（未填）", "（未填）", "（未填）", ""⟩

/-- A world holding the demonstration directory of the scenario: one
valid target file, one irrelevant spreadsheet, no background inputs, and
a final save that succeeds. -/
def demoWorld : World := ⟨none, none, none, none, [demoFile, otherFile], true⟩

/-- A world holding one target file whose latitude cell is empty (read
as NaN) and a final save that would succeed. -/
def nanWorld : World := ⟨none, none, none, none, [nanLatFile], true⟩

/-
Helper lemmas about slug derivation.
-/

/-- No character of the allowed class is whitespace. -/
theorem allowed_not_space (c : Char) (h : allowedChar c = true) : isSpaceChar c = false := by
  by_contra hs
  rw [Bool.not_eq_false] at hs
  have hc : c = ' ' ∨ c = '\t' ∨ c = '\n' ∨ c = '\r' ∨ c = '\x0b' ∨ c = '\x0c' := by
    simpa [isSpaceChar, or_assoc] using hs
  rcases hc with h1 | h1 | h1 | h1 | h1 | h1 <;> subst h1 <;> exact absurd h (by decide)

/-- dropWhile is the identity when the predicate fails everywhere. -/
theorem dropWhile_eq_self_of_none {p : Char → Bool} {l : List Char}
    (h : ∀ c ∈ l, p c = false) : l.dropWhile p = l := by
  cases l with
  | nil => rfl
  | cons a t => simp [List.dropWhile_cons, h a (List.mem_cons_self a t)]

/-- Stripping a list without whitespace is the identity. -/
theorem stripList_eq_self {l : List Char} (h : ∀ c ∈ l, isSpaceChar c = false) :
    stripList l = l := by
  unfold stripList
  rw [dropWhile_eq_self_of_none h,
      dropWhile_eq_self_of_none (fun c hc => h c (List.mem_reverse.mp hc)),
      List.reverse_reverse]

/-- Collapsing whitespace runs in a list without whitespace is the
identity. -/
theorem collapseWS_eq_self {l : List Char} (h : ∀ c ∈ l, isSpaceChar c = false) :
    ∀ b, collapseWS l b = l := by
  induction l with
  | nil => intro b; rfl
  | cons a t ih =>
    intro b
    simp [collapseWS, h a (List.mem_cons_self a t),
          ih (fun c hc => h c (List.mem_cons_of_mem a hc)) false]

/-- The replacement map is the identity on allowed characters. -/
theorem map_keep_eq_self {l : List Char} (h : ∀ c ∈ l, allowedChar c = true) :
    l.map (fun c => if allowedChar c then c else '_') = l := by
  induction l with
  | nil => rfl
  | cons a t ih =>
    simp [h a (List.mem_cons_self a t),
          ih (fun c hc => h c (List.mem_cons_of_mem a hc))]

/-- Every character of a slug lies in the allowed class. -/
theorem safe_slug_allowed (s : String) : ∀ c ∈ (safe_slug s).data, allowedChar c = true := by
  intro c hc
  have hc' : c ∈ (collapseWS (stripList s.data) false).map
      (fun c => if allowedChar c then c else '_') := hc
  obtain ⟨a, _, ha⟩ := List.mem_map.mp hc'
  by_cases hall : allowedChar a = true
  · rw [← ha, if_pos hall]; exact hall
  · rw [← ha, if_neg hall]; decide

/-- safe_slug is the identity on strings made of allowed characters. -/
theorem safe_slug_fixed (l : List Char) (h : ∀ c ∈ l, allowedChar c = true) :
    safe_slug (String.mk l) = String.mk l := by
  have hns : ∀ c ∈ l, isSpaceChar c = false := fun c hc => allowed_not_space c (h c hc)
  show String.mk ((collapseWS (stripList l) false).map
    (fun c => if allowedChar c then c else '_')) = String.mk l
  rw [stripList_eq_self hns, collapseWS_eq_self hns false, map_keep_eq_self h]

/-- Slug derivation is idempotent. -/
theorem safe_slug_idem (s : String) : safe_slug (safe_slug s) = safe_slug s := by
  have hall := safe_slug_allowed s
  generalize hT : safe_slug s = t at *
  obtain ⟨l⟩ := t
  exact safe_slug_fixed l hall

/-
Helper lemmas about the cell ordering used by the measurement sort.
-/

/-- The lexicographic string order is total. -/
theorem strLEb_total : ∀ a b : List Char, strLEb a b = true ∨ strLEb b a = true := by
  intro a
  induction a with
  | nil => intro b; left; rfl
  | cons x xs ih =>
    intro b
    cases b with
    | nil => right; rfl
    | cons y ys =>
      by_cases hxy : x.toNat = y.toNat
      · rcases ih ys with h | h
        · left; simp only [strLEb]; rw [if_pos hxy]; exact h
        · right; simp only [strLEb]; rw [if_pos hxy.symm]; exact h
      · have hyx : ¬ y.toNat = x.toNat := fun e => hxy e.symm
        rcases Nat.lt_or_ge x.toNat y.toNat with hlt | hge
        · left; simp only [strLEb]; rw [if_neg hxy]; exact decide_eq_true hlt
        · right
          have hlt2 : y.toNat < x.toNat := lt_of_le_of_ne hge hyx
          simp only [strLEb]; rw [if_neg hyx]; exact decide_eq_true hlt2

/-- The lexicographic string order is transitive. -/
theorem strLEb_trans : ∀ a b c : List Char,
    strLEb a b = true → strLEb b c = true → strLEb a c = true := by
  intro a
  induction a with
  | nil => intro b c _ _; rfl
  | cons x xs ih =>
    intro b c hab hbc
    cases b with
    | nil => simp [strLEb] at hab
    | cons y ys =>
      cases c with
      | nil => simp [strLEb] at hbc
      | cons z zs =>
        simp only [strLEb] at hab hbc ⊢
        by_cases hxy : x.toNat = y.toNat <;> by_cases hyz : y.toNat = z.toNat
        · rw [if_pos hxy] at hab
          rw [if_pos hyz] at hbc
          rw [if_pos (hxy.trans hyz)]
          exact ih ys zs hab hbc
        · rw [if_neg hyz] at hbc
          have hxz : x.toNat < z.toNat := hxy ▸ of_decide_eq_true hbc
          rw [if_neg (Nat.ne_of_lt hxz)]
          exact decide_eq_true hxz
        · rw [if_neg hxy] at hab
          have hxz : x.toNat < z.toNat := hyz ▸ of_decide_eq_true hab
          rw [if_neg (Nat.ne_of_lt hxz)]
          exact decide_eq_true hxz
        · rw [if_neg hxy] at hab
          rw [if_neg hyz] at hbc
          have hxz : x.toNat < z.toNat :=
            lt_trans (of_decide_eq_true hab) (of_decide_eq_true hbc)
          rw [if_neg (Nat.ne_of_lt hxz)]
          exact decide_eq_true hxz

/-- The cell ordering is total. -/
theorem cellLE_total : ∀ a b : Cell, cellLE a b = true ∨ cellLE b a = true := by
  intro a b
  cases a <;> cases b <;>
    first
      | exact Or.inl rfl
      | exact Or.inr rfl
      | (simp only [cellLE, decide_eq_true_eq]; exact le_total _ _)
      | (simp only [cellLE]; exact strLEb_total _ _)

/-- The cell ordering is transitive. -/
theorem cellLE_trans : ∀ a b c : Cell,
    cellLE a b = true → cellLE b c = true → cellLE a c = true := by
  intro a b c hab hbc
  cases a <;> cases b <;> cases c <;>
    first
      | rfl
      | exact absurd hab Bool.false_ne_true
      | exact absurd hbc Bool.false_ne_true
      | (simp only [cellLE, decide_eq_true_eq] at hab hbc ⊢; exact le_trans hab hbc)
      | (simp only [cellLE] at hab hbc ⊢; exact strLEb_trans _ _ _ hab hbc)

instance rowLETotal (i : Nat) : IsTotal (List Cell) (rowLE i) :=
  ⟨fun r1 r2 => cellLE_total (r1.getD i Cell.nan) (r2.getD i Cell.nan)⟩

instance rowLETrans (i : Nat) : IsTrans (List Cell) (rowLE i) :=
  ⟨fun _ _ _ h1 h2 => cellLE_trans _ _ _ h1 h2⟩

/-
Helper lemmas about the scan loop.
-/

/-- A denylisted file contributes nothing to the accepted records. -/
theorem acceptedRecords_cons_excl {f : PFile} {fs : List PFile}
    (hx : f.name ∈ EXCLUDE_FILES) :
    acceptedRecords (f :: fs) = acceptedRecords fs := by
  simp [acceptedRecords, List.filter_cons, hx]

/-- A scanned file contributes its extraction result to the accepted
records. -/
theorem acceptedRecords_cons_incl {f : PFile} {fs : List PFile}
    (hx : f.name ∉ EXCLUDE_FILES) :
    acceptedRecords (f :: fs) =
      ((read_park_xlsx f).record.toList) ++ acceptedRecords fs := by
  simp only [acceptedRecords, List.filter_cons, hx, not_false_eq_true, decide_True, if_pos]
  rcases hr : (read_park_xlsx f).record with _ | d <;> simp [List.filterMap_cons, hr]

/-- The scan loop produces exactly one marker per accepted record, in
order, and its counter equals the number of accepted records. -/
theorem scanFiles_spec (files : List PFile) :
    (scanFiles files).markers = (acceptedRecords files).map mkMarker ∧
    (scanFiles files).count = (acceptedRecords files).length := by
  induction files with
  | nil => exact ⟨rfl, rfl⟩
  | cons f fs ih =>
    by_cases hx : f.name ∈ EXCLUDE_FILES
    case pos =>
      have h1 : scanFiles (f :: fs) = scanFiles fs := by
        simp [scanFiles, hx]
      rw [h1, acceptedRecords_cons_excl hx]
      exact ih
    case neg =>
      rw [acceptedRecords_cons_incl hx]
      cases hr : (read_park_xlsx f).record with
      | none =>
        have h1 : scanFiles (f :: fs) =
            ⟨(scanFiles fs).markers, (scanFiles fs).count,
             (read_park_xlsx f).pages ++ (scanFiles fs).pages,
             (read_park_xlsx f).log ++ (scanFiles fs).log⟩ := by
          simp [scanFiles, hx, hr]
        rw [h1]
        refine ⟨?_, ?_⟩ <;> simp [ih.1, ih.2]
      | some d =>
        have h1 : scanFiles (f :: fs) =
            ⟨mkMarker d :: (scanFiles fs).markers, (scanFiles fs).count + 1,
             (read_park_xlsx f).pages ++ (scanFiles fs).pages,
             (read_park_xlsx f).log ++ (LogEvent.loaded d.park_name :: (scanFiles fs).log)⟩ := by
          simp [scanFiles, hx, hr]
        rw [h1]
        refine ⟨?_, ?_⟩ <;> simp [ih.1, ih.2]


/-- When every accepted record has non-NaN coordinates, no marker
construction raises and the exception-aware scan completes with exactly
the accumulated scan result. -/
theorem scanFilesE_done_of_valid (files : List PFile)
    (h : ∀ d ∈ acceptedRecords files, locationValid d = true) :
    scanFilesE files = ScanOutcome.done (scanFiles files) := by
  induction files with
  | nil => rfl
  | cons f fs ih =>
    by_cases hx : f.name ∈ EXCLUDE_FILES
    case pos =>
      have hrest : ∀ d ∈ acceptedRecords fs, locationValid d = true := by
        intro d hd
        apply h d
        rw [acceptedRecords_cons_excl hx]
        exact hd
      simp [scanFilesE, scanFiles, hx, ih hrest]
    case neg =>
      have hacc := @acceptedRecords_cons_incl f fs hx
      have hrest : ∀ d ∈ acceptedRecords fs, locationValid d = true := by
        intro d hd
        refine h d ?_
        rw [hacc]
        exact List.mem_append_right _ hd
      rcases hr : (read_park_xlsx f).record with _ | d
      · simp [scanFilesE, scanFiles, hx, hr, ih hrest]
      · have hd : d ∈ acceptedRecords (f :: fs) := by
          rw [hacc, hr]
          exact List.mem_append_left _ (by simp)
        simp [scanFilesE, scanFiles, hx, hr, h d hd, ih hrest]

/-- When the exception-aware scan crashes, the offending record is one
of the accepted records and its location is invalid (a NaN
coordinate). -/
theorem scanFilesE_crashed (files : List PFile) (d : ParkRecord)
    (h : scanFilesE files = ScanOutcome.crashed d) :
    d ∈ acceptedRecords files ∧ locationValid d = false := by
  induction files with
  | nil => exact absurd h (by simp [scanFilesE])
  | cons f fs ih =>
    by_cases hx : f.name ∈ EXCLUDE_FILES
    case pos =>
      have h' : scanFilesE fs = ScanOutcome.crashed d := by
        rw [show scanFilesE (f :: fs) = scanFilesE fs from by simp [scanFilesE, hx]] at h
        exact h
      refine ⟨?_, (ih h').2⟩
      rw [acceptedRecords_cons_excl hx]
      exact (ih h').1
    case neg =>
      have hacc := @acceptedRecords_cons_incl f fs hx
      rcases hr : (read_park_xlsx f).record with _ | e
      · simp only [scanFilesE, hx, if_neg, hr] at h
        rcases hs : scanFilesE fs with r | e
        · rw [hs] at h; exact absurd h (by simp)
        · rw [hs] at h
          have hde : e = d := by simpa using h
          subst hde
          refine ⟨?_, (ih hs).2⟩
          rw [hacc, hr]
          simpa using (ih hs).1
      · by_cases hv : locationValid e = true
        · simp only [scanFilesE, hx, if_neg, hr, hv, if_pos] at h
          rcases hs : scanFilesE fs with r | e2
          · rw [hs] at h; exact absurd h (by simp)
          · rw [hs] at h
            have hde : e2 = d := by simpa using h
            subst hde
            refine ⟨?_, (ih hs).2⟩
            rw [hacc, hr]
            exact List.mem_append_right _ (ih hs).1
        · simp only [scanFilesE, hx, if_neg, hr, hv] at h
          have hde : e = d := by simpa using h
          subst hde
          refine ⟨?_, by simpa using hv⟩
          rw [hacc, hr]
          exact List.mem_append_left _ (by simp)

/-
The claims.
-/

/-- Claim C1: the composed map document contains exactly as many
target-park markers as there were validly extracted park records: the
target feature group has one marker per accepted record and the success
counter agrees, regardless of how many files were rejected or skipped. -/
theorem claim1_marker_count (w : World) :
    (buildRun w).targetMarkers.length = (acceptedRecords w.files).length ∧
    (buildRun w).count = (acceptedRecords w.files).length := by
  have h := scanFiles_spec w.files
  refine ⟨?_, h.2⟩
  show (scanFiles w.files).markers.length = _
  rw [h.1, List.length_map]

/-- Witness for C1 at the scenario world: one valid target file plus one
irrelevant spreadsheet. -/
theorem claim1_witness :
    (buildRun demoWorld).targetMarkers.length = (acceptedRecords demoWorld.files).length ∧
    (buildRun demoWorld).count = (acceptedRecords demoWorld.files).length :=
  claim1_marker_count demoWorld

/-- Claim C3: a spreadsheet that fails to open, or lacks the sheet
工業區基本資料, is classified as non-target: the per-file routine returns
none, writes no page, and logs nothing. -/
theorem claim3_non_target (f : PFile)
    (h : f.content = none ∨
         ∃ xl, f.content = some xl ∧ lookupSheet xl "工業區基本資料" = none) :
    read_park_xlsx f = ⟨none, [], []⟩ := by
  rcases h with h | ⟨xl, h1, h2⟩
  · simp [read_park_xlsx, h]
  · simp [read_park_xlsx, h1, h2]

/-- Witness for C3 at a file whose opening raises. -/
theorem claim3_witness :
    (brokenFile.content = none ∨
     ∃ xl, brokenFile.content = some xl ∧ lookupSheet xl "工業區基本資料" = none) ∧
    read_park_xlsx brokenFile = ⟨none, [], []⟩ :=
  ⟨Or.inl rfl, claim3_non_target brokenFile (Or.inl rfl)⟩

/-- Claim C4: slug derivation is idempotent and every character of its
output lies in the allowed class (word characters, CJK ideographs,
hyphen, underscore, dot); whitespace runs and disallowed characters are
replaced by underscores inside safe_slug. -/
theorem claim4_slug_idempotent (s : String) :
    safe_slug (safe_slug s) = safe_slug s ∧
    ∀ c ∈ (safe_slug s).data, allowedChar c = true :=
  ⟨safe_slug_idem s, safe_slug_allowed s⟩

/-- Witness for C4 at a concrete string with whitespace and a disallowed
character. -/
theorem claim4_witness :
    safe_slug (safe_slug "示範 園區?A") = safe_slug "示範 園區?A" ∧
    '示' ∈ (safe_slug "示範 園區?A").data ∧ allowedChar '示' = true :=
  ⟨(claim4_slug_idempotent "示範 園區?A").1, by decide,
   (claim4_slug_idempotent "示範 園區?A").2 '示' (by decide)⟩

/-- Claim C9 counterexample: a directory with one target file whose
latitude cell is empty yields an accepted record with a NaN coordinate
(claim C2 territory); folium.Marker then raises ValueError outside every
try block, so the run aborts inside the scan loop even though the final
save would have succeeded — refuting the claim that only failure to
write the final document aborts the run. -/
theorem claim9_counterexample :
    nanWorld.saveOk = true ∧
    mainRun nanWorld = Outcome.markerError
      ⟨"示範園區", PyFloat.val lonQ, PyFloat.nan, "（未填）", "（未填）", "（未填）", ""⟩ ∧
    mainRun nanWorld ≠ Outcome.ok (buildRun nanWorld) := by
  exact ⟨rfl, by decide, by decide⟩

/-- Claim C9 (amended): no failure of an individual background layer,
target file, or detail page aborts the run, with one exception: an
accepted record carrying a NaN coordinate makes folium.Marker raise
outside every try block, aborting the run inside the scan loop before
the save.  Whenever every accepted record has non-NaN coordinates, the
run reaches the final save, exits 0 exactly when that save succeeds, and
only the save can abort it; and every marker-construction abort comes
from an accepted record with a NaN coordinate. -/
theorem claim9_fatal_characterisation (w : World) :
    ((∀ d ∈ acceptedRecords w.files, locationValid d = true) →
      (w.saveOk = true → mainRun w = Outcome.ok (buildRun w)) ∧
      (w.saveOk = false → mainRun w = Outcome.saveError (buildRun w))) ∧
    (∀ d, mainRun w = Outcome.markerError d →
      d ∈ acceptedRecords w.files ∧ locationValid d = false) := by
  constructor
  · intro hvalid
    have hdone := scanFilesE_done_of_valid w.files hvalid
    constructor <;> intro h <;> simp [mainRun, hdone, h]
  · intro d h
    rcases hs : scanFilesE w.files with r | e
    · rw [mainRun, hs] at h
      rcases hsv : w.saveOk <;> simp [hsv] at h
    · rw [mainRun, hs] at h
      have hde : e = d := by simpa using h
      subst hde
      exact scanFilesE_crashed w.files e hs

/-- Witness for the amended C9 at the scenario world, where every
accepted record has finite coordinates and the save succeeds. -/
theorem claim9_witness :
    (∀ d ∈ acceptedRecords demoWorld.files, locationValid d = true) ∧
    demoWorld.saveOk = true ∧
    mainRun demoWorld = Outcome.ok (buildRun demoWorld) :=
  ⟨by decide, rfl, ((claim9_fatal_characterisation demoWorld).1 (by decide)).1 rfl⟩

/-- Claim C10: a spreadsheet containing the required sheet with fewer
than two columns is skipped silently, exactly like a non-target file:
the column access raises inside the same try block, so no record is
produced and no warning is logged. -/
theorem claim10_short_header (f : PFile) (xl : Xlsx) (sheet : Sheet)
    (h1 : f.content = some xl)
    (h2 : lookupSheet xl "工業區基本資料" = some sheet)
    (h3 : sheet.header.length < 2) :
    read_park_xlsx f = ⟨none, [], []⟩ := by
  simp [read_park_xlsx, h1, h2, h3]

/-- Witness for C10 at a one-column basic-info sheet. -/
theorem claim10_witness :
    oneColFile.content = some oneColXlsx ∧
    lookupSheet oneColXlsx "工業區基本資料" = some ⟨["項目"], [[Cell.str "工業區名稱"]]⟩ ∧
    read_park_xlsx oneColFile = ⟨none, [], []⟩ :=
  ⟨rfl, by decide,
   claim10_short_header oneColFile oneColXlsx ⟨["項目"], [[Cell.str "工業區名稱"]]⟩
     rfl (by decide) (by decide)⟩

/-- Claim C2 counterexample: a target file whose center-latitude value
is absent (the key row is present but its value cell is empty, which
pandas materialises as float NaN) is NOT rejected: float(nan) succeeds,
so the extractor returns a record (with NaN latitude) and logs no
warning, contradicting the claim that an absent coordinate value always
yields rejection plus a warning. -/
theorem claim2_counterexample :
    (read_park_xlsx nanLatFile).record =
      some ⟨"示範園區", PyFloat.val lonQ, PyFloat.nan,
            "（未填）", "（未填）", "（未填）", ""⟩ ∧
    (read_park_xlsx nanLatFile).log = [] := by
  exact ⟨by decide, by decide⟩

/-- Claim C2 (amended): for a target spreadsheet whose center-longitude
or center-latitude lookup fails float coercion — the key row is missing
(so the dictionary lookup yields None) or the value is a non-numeric
string — the extractor returns no record and no page and logs exactly one
warning naming the park and the file, and the scan loop adds no marker
for this file while continuing with the remaining files.  (An empty
coordinate cell is read as float NaN, passes coercion, and is accepted.) -/
theorem claim2_coord_reject (f : PFile) (xl : Xlsx) (sheet : Sheet)
    (h1 : f.content = some xl)
    (h2 : lookupSheet xl "工業區基本資料" = some sheet)
    (h3 : ¬ sheet.header.length < 2)
    (h4 : floatOfLookup (kvGet sheet.rows "工業區中心經度") = none ∨
          floatOfLookup (kvGet sheet.rows "工業區中心緯度") = none) :
    read_park_xlsx f =
      ⟨none, [],
       [LogEvent.coordWarn (getStr sheet.rows "工業區名稱" (pathStem f.name)) f.name]⟩ ∧
    ∀ rest, f.name ∉ EXCLUDE_FILES →
      scanFiles (f :: rest) =
        ⟨(scanFiles rest).markers, (scanFiles rest).count, (scanFiles rest).pages,
         LogEvent.coordWarn (getStr sheet.rows "工業區名稱" (pathStem f.name)) f.name ::
           (scanFiles rest).log⟩ := by
  have hre : read_park_xlsx f =
      ⟨none, [],
       [LogEvent.coordWarn (getStr sheet.rows "工業區名稱" (pathStem f.name)) f.name]⟩ := by
    rcases h4 with h4 | h4
    · simp [read_park_xlsx, h1, h2, h3, h4]
    · rcases hl : floatOfLookup (kvGet sheet.rows "工業區中心經度") with _ | v <;>
        simp [read_park_xlsx, h1, h2, h3, h4, hl]
  refine ⟨hre, fun rest hx => ?_⟩
  simp [scanFiles, hx, hre]

/-- Witness for the amended C2 at a target file with a non-numeric
latitude string. -/
theorem claim2_witness :
    (¬ badLatSheet.header.length < 2) ∧
    floatOfLookup (kvGet badLatSheet.rows "工業區中心緯度") = none ∧
    read_park_xlsx badLatFile = ⟨none, [], [LogEvent.coordWarn "示範園區" "bad.xlsx"]⟩ := by
  refine ⟨by decide, by decide, ?_⟩
  have h := claim2_coord_reject badLatFile ⟨[("工業區基本資料", badLatSheet)]⟩ badLatSheet
    rfl (by decide) (by decide) (Or.inr (by decide))
  rw [h.1]
  decide

/-- Claim C5 counterexample: the demonstration target file lacks the key
監測期間 entirely, and the extracted record carries the placeholder
（未填）, not the empty string claimed. -/
theorem claim5_counterexample :
    kvGet demoBasicSheet.rows "監測期間" = none ∧
    (read_park_xlsx demoFile).record.map ParkRecord.monitoring_period = some "（未填）" ∧
    (read_park_xlsx demoFile).record.map ParkRecord.monitoring_period ≠ some "" := by
  exact ⟨by decide, by decide, by decide⟩

/-- Claim C5 (amended): when the basic-info sheet lacks one of the
descriptive metadata keys (監測期間, 資料類型, 備註), the extractor sets
the corresponding field of the record to the placeholder （未填） (the
default passed at the get_str call sites), not to the empty string. -/
theorem claim5_missing_key_placeholder (f : PFile) (xl : Xlsx) (sheet : Sheet)
    (r : ParkRecord)
    (h1 : f.content = some xl)
    (h2 : lookupSheet xl "工業區基本資料" = some sheet)
    (hr : (read_park_xlsx f).record = some r) :
    (kvGet sheet.rows "監測期間" = none → r.monitoring_period = "（未填）") ∧
    (kvGet sheet.rows "資料類型" = none → r.data_type = "（未填）") ∧
    (kvGet sheet.rows "備註" = none → r.note = "（未填）") := by
  by_cases h3 : sheet.header.length < 2
  · simp [read_park_xlsx, h1, h2, h3] at hr
  · rcases e1 : floatOfLookup (kvGet sheet.rows "工業區中心經度") with _ | lon
    · simp [read_park_xlsx, h1, h2, h3, e1] at hr
    · rcases e2 : floatOfLookup (kvGet sheet.rows "工業區中心緯度") with _ | lat
      · simp [read_park_xlsx, h1, h2, h3, e1, e2] at hr
      · have hr' : r =
            ⟨getStr sheet.rows "工業區名稱" (pathStem f.name), lon, lat,
             getStr sheet.rows "監測期間" "（未填）",
             getStr sheet.rows "資料類型" "（未填）",
             getStr sheet.rows "備註" "（未填）",
             (processMeas f.measOk xl (getStr sheet.rows "工業區名稱" (pathStem f.name))).1⟩ := by
          have h := hr
          simp [read_park_xlsx, h1, h2, h3, e1, e2] at h
          exact h.symm
        subst hr'
        refine ⟨fun hk => ?_, fun hk => ?_, fun hk => ?_⟩ <;> simp [getStr, hk]

/-- Witness for the amended C5 at the demonstration file, which lacks
the key 監測期間. -/
theorem claim5_witness :
    kvGet demoBasicSheet.rows "監測期間" = none ∧
    (read_park_xlsx demoFile).record = some demoRecord ∧
    demoRecord.monitoring_period = "（未填）" := by
  refine ⟨by decide, by decide, ?_⟩
  have h := claim5_missing_key_placeholder demoFile demoXlsx demoBasicSheet demoRecord
    rfl (by decide) (by decide)
  exact h.1 (by decide)

/-- Claim C6: a target file with valid coordinates whose measurement
sheet exists but whose detail-page generation fails still yields its
record: the extractor logs one warning, leaves the detail-page link
empty, writes no page, and the scan loop still adds the marker. -/
theorem claim6_meas_failure (f : PFile) (xl : Xlsx) (sheet ms : Sheet)
    (h1 : f.content = some xl)
    (h2 : lookupSheet xl "工業區基本資料" = some sheet)
    (h3 : ¬ sheet.header.length < 2)
    (hlon : floatOfLookup (kvGet sheet.rows "工業區中心經度") ≠ none)
    (hlat : floatOfLookup (kvGet sheet.rows "工業區中心緯度") ≠ none)
    (h4 : lookupSheet xl "量測資料" = some ms)
    (h5 : f.measOk = false) :
    ∃ r, (read_park_xlsx f).record = some r ∧
      r.raw_page_href = "" ∧
      (read_park_xlsx f).pages = [] ∧
      (read_park_xlsx f).log = [LogEvent.measWarn r.park_name] ∧
      ∀ rest, f.name ∉ EXCLUDE_FILES →
        (scanFiles (f :: rest)).markers = mkMarker r :: (scanFiles rest).markers := by
  rcases Option.ne_none_iff_exists'.mp hlon with ⟨lon, hl⟩
  rcases Option.ne_none_iff_exists'.mp hlat with ⟨lat, hla⟩
  have hre : read_park_xlsx f =
      ⟨some ⟨getStr sheet.rows "工業區名稱" (pathStem f.name), lon, lat,
             getStr sheet.rows "監測期間" "（未填）",
             getStr sheet.rows "資料類型" "（未填）",
             getStr sheet.rows "備註" "（未填）", ""⟩,
       [], [LogEvent.measWarn (getStr sheet.rows "工業區名稱" (pathStem f.name))]⟩ := by
    simp [read_park_xlsx, h1, h2, h3, hl, hla, processMeas, h4, h5]
  refine ⟨_, by rw [hre], rfl, by rw [hre], by rw [hre], fun rest hx => ?_⟩
  simp [scanFiles, hx, hre]

/-- Witness for C6 at a target file whose detail-page write fails. -/
theorem claim6_witness :
    demoFile2Bad.measOk = false ∧
    lookupSheet demoXlsx2 "量測資料" = some demoMeasSheet ∧
    ∃ r, (read_park_xlsx demoFile2Bad).record = some r ∧
      r.raw_page_href = "" ∧
      (read_park_xlsx demoFile2Bad).pages = [] ∧
      (read_park_xlsx demoFile2Bad).log = [LogEvent.measWarn r.park_name] ∧
      ∀ rest, demoFile2Bad.name ∉ EXCLUDE_FILES →
        (scanFiles (demoFile2Bad :: rest)).markers =
          mkMarker r :: (scanFiles rest).markers :=
  ⟨rfl, rfl,
   claim6_meas_failure demoFile2Bad demoXlsx2 demoBasicSheet demoMeasSheet
     rfl (by decide) (by decide) (by decide) (by decide) rfl rfl⟩

/-- Claim C7: when the detail page is generated, its table holds the
measurement rows sorted by the StartTime column when that column exists
(the rendered rows are a permutation of the sheet rows, pairwise
non-decreasing in that column), and the original row order when the
column is absent. -/
theorem claim7_starttime_sorted (f : PFile) (xl : Xlsx) (sheet ms : Sheet)
    (h1 : f.content = some xl)
    (h2 : lookupSheet xl "工業區基本資料" = some sheet)
    (h3 : ¬ sheet.header.length < 2)
    (hlon : floatOfLookup (kvGet sheet.rows "工業區中心經度") ≠ none)
    (hlat : floatOfLookup (kvGet sheet.rows "工業區中心緯度") ≠ none)
    (h4 : lookupSheet xl "量測資料" = some ms)
    (h5 : f.measOk = true) :
    (read_park_xlsx f).pages =
      [(safe_slug (getStr sheet.rows "工業區名稱" (pathStem f.name)) ++ "_量測資料.html",
        sortedMeasRows ms)] ∧
    (∀ i, startTimeIdx ms.header = some i →
      (sortedMeasRows ms).Pairwise (rowLE i) ∧ (sortedMeasRows ms).Perm ms.rows) ∧
    (startTimeIdx ms.header = none → sortedMeasRows ms = ms.rows) := by
  rcases Option.ne_none_iff_exists'.mp hlon with ⟨lon, hl⟩
  rcases Option.ne_none_iff_exists'.mp hlat with ⟨lat, hla⟩
  refine ⟨?_, fun i hi => ⟨?_, ?_⟩, fun hi => ?_⟩
  · simp [read_park_xlsx, h1, h2, h3, hl, hla, processMeas, h4, h5]
  · simp only [sortedMeasRows, hi]
    exact List.sorted_insertionSort (rowLE i) ms.rows
  · simp only [sortedMeasRows, hi]
    exact List.perm_insertionSort (rowLE i) ms.rows
  · simp [sortedMeasRows, hi]

/-- Witness for C7 at a target file whose measurement sheet has an
out-of-order StartTime column. -/
theorem claim7_witness :
    demoFile2.measOk = true ∧
    startTimeIdx demoMeasSheet.header = some 0 ∧
    (read_park_xlsx demoFile2).pages =
      [("示範園區_量測資料.html", sortedMeasRows demoMeasSheet)] ∧
    (sortedMeasRows demoMeasSheet).Pairwise (rowLE 0) ∧
    (sortedMeasRows demoMeasSheet).Perm demoMeasSheet.rows := by
  have h := claim7_starttime_sorted demoFile2 demoXlsx2 demoBasicSheet demoMeasSheet
    rfl (by decide) (by decide) (by decide) (by decide) rfl rfl
  refine ⟨rfl, by decide, ?_, (h.2.1 0 (by decide)).1, (h.2.1 0 (by decide)).2⟩
  rw [h.1]
  decide

/-- Claim C8: every marker of the target feature group belongs to an
accepted record and its popup contains the hidden element carrying the
park name, latitude and longitude as data attributes keyed by the
slug-derived element id. -/
theorem claim8_popup_meta (w : World) (mk : Marker)
    (h : mk ∈ (buildRun w).targetMarkers) :
    ∃ d, d ∈ acceptedRecords w.files ∧
      mk.lat = d.lat ∧ mk.lon = d.lon ∧ mk.tooltip = d.park_name ∧
      ∃ a b, mk.popup =
        a ++ ("<div id=\"meta_" ++ safe_slug d.park_name ++
              "\" data-park=\"" ++ d.park_name ++
              "\" data-lat=\"" ++ pyFloatStr d.lat ++
              "\" data-lon=\"" ++ pyFloatStr d.lon ++
              "\" style=\"display:none;\"></div>") ++ b := by
  have hm : mk ∈ (scanFiles w.files).markers := h
  rw [(scanFiles_spec w.files).1] at hm
  obtain ⟨d, hd, rfl⟩ := List.mem_map.mp hm
  exact ⟨d, hd, rfl, rfl, rfl, popupHead d, popupTail, rfl⟩

set_option maxRecDepth 8192 in
/-- Witness for C8 at the scenario world and its single marker. -/
theorem claim8_witness :
    mkMarker demoRecord ∈ (buildRun demoWorld).targetMarkers ∧
    ∃ d, d ∈ acceptedRecords demoWorld.files ∧
      (mkMarker demoRecord).lat = d.lat ∧ (mkMarker demoRecord).lon = d.lon ∧
      (mkMarker demoRecord).tooltip = d.park_name ∧
      ∃ a b, (mkMarker demoRecord).popup =
        a ++ ("<div id=\"meta_" ++ safe_slug d.park_name ++
              "\" data-park=\"" ++ d.park_name ++
              "\" data-lat=\"" ++ pyFloatStr d.lat ++
              "\" data-lon=\"" ++ pyFloatStr d.lon ++
              "\" style=\"display:none;\"></div>") ++ b :=
  ⟨by decide, claim8_popup_meta demoWorld (mkMarker demoRecord) (by decide)⟩

end BuildMap



